import Mathlib

/-!
Shallow embedding of the kids task/rewards API (src/api/Program.cs, the
revision that maintains the materialized `KidProfile.PointsBalance` together
with the `PointTransaction` ledger, plus src/api/AppDbContext.cs and the
entity classes).  Handlers are modelled as pure functions from a database
state to a result together with the committed successor state; every
`SaveChangesAsync` boundary in the source corresponds to one state value
here, and the two-phase redeem handler exposes its intermediate committed
state explicitly.
-/

/-- Entity `KidProfile`: id, owning parent, display name and the
materialized points balance (C# default initializer sets it to 0).  The
balance is a C# `int`: unchecked 32-bit arithmetic that wraps at 2^31 —
here an `Int` kept in [-2^31, 2^31) by applying `wrap32` at every
arithmetic write. -/
structure KidProfile where
  id : String
  parentId : String
  displayName : String
  pointsBalance : Int
deriving Repr, DecidableEq

/-- Entity `KidTask`. -/
structure KidTask where
  id : Nat
  title : String
  points : Int
  assignedKidId : String
  createdByParentId : String
  isComplete : Bool
  completedAt : Option Nat
deriving Repr, DecidableEq

/-- Entity `Reward`. -/
structure Reward where
  id : Nat
  name : String
  cost : Int
deriving Repr, DecidableEq

/-- Entity `Redemption`. -/
structure Redemption where
  id : Nat
  kidId : String
  rewardId : Nat
  redeemedAt : Nat
deriving Repr, DecidableEq

/-- Enum `PointTransactionType`. -/
inductive PointTransactionType where
  | earn
  | spend
  | adjust
deriving Repr, DecidableEq, BEq

/-- Entity `PointTransaction` (ledger row). -/
structure PointTransaction where
  id : Nat
  kidId : String
  txnType : PointTransactionType
  delta : Int
  taskId : Option Nat
  redemptionId : Option Nat
  note : String
  createdAtUtc : Nat
deriving Repr, DecidableEq

/-- Entity `TodoItem`. -/
structure TodoItem where
  id : Nat
  title : String
  isDone : Bool
deriving Repr, DecidableEq

/-- The committed database state: one list per DbSet of `AppDbContext`,
plus autoincrement counters for the integer primary keys. -/
structure DbState where
  kids : List KidProfile
  tasks : List KidTask
  rewards : List Reward
  redemptions : List Redemption
  transactions : List PointTransaction
  todos : List TodoItem
  nextTaskId : Nat
  nextRewardId : Nat
  nextRedemptionId : Nat
  nextTransactionId : Nat
  nextTodoId : Nat
deriving Repr, DecidableEq

/-- An authenticated principal, as resolved from the JWT claims: a Parent
token carries `sub = user id`, a Kid token carries `sub = kidId`, a
`kidId` claim and a `parentId` claim. -/
inductive Principal where
  | parent (userId : String)
  | kid (kidId : String) (parentId : String)
deriving Repr, DecidableEq

/-- Model of `string.Trim()`: drop leading and trailing whitespace.
(Defined over the character list so that it evaluates by kernel
reduction; `String.trim` itself is defined by well-founded recursion.) -/
def strTrim (s : String) : String :=
  String.mk (((s.data.dropWhile Char.isWhitespace).reverse.dropWhile
    Char.isWhitespace).reverse)

/-- Model of `string.IsNullOrWhiteSpace` on a non-null string. -/
def isNullOrWhiteSpace (s : String) : Bool := (strTrim s).data.isEmpty

/-- Model of C# unchecked 32-bit `int` arithmetic: reduce an unbounded
integer to its wrapped representative in [-2^31, 2^31).  (2147483648 =
2^31, 4294967296 = 2^32.) -/
def wrap32 (n : Int) : Int := (n + 2147483648) % 4294967296 - 2147483648

/-- HTTP results produced by the handlers (`Results.*` in Program.cs);
`notFound none` is the bare `Results.NotFound()`. -/
inductive ApiResult (α : Type) where
  | ok (v : α)
  | created (v : α)
  | noContent
  | badRequest (msg : String)
  | notFound (msg : Option String)
  | unauthorized
  | forbidden
  | internalError
deriving Repr, DecidableEq

/-- Whether a result is a 200 OK. -/
def ApiResult.isOk {α : Type} : ApiResult α → Bool
  | .ok _ => true
  | _ => false

/-- Errors of the shared role-dispatch prologue of `GET /api/points` and
`PUT /api/tasks/{id}/complete`. -/
inductive AuthErr where
  | unauthorized
  | badRequest (msg : String)
deriving Repr, DecidableEq

/-- Map an `AuthErr` to the handler result it produces. -/
def AuthErr.toResult {α : Type} : AuthErr → ApiResult α
  | .unauthorized => ApiResult.unauthorized
  | .badRequest m => ApiResult.badRequest m

/-- The role-dispatch prologue shared verbatim by `GET /api/points` and
`PUT /api/tasks/{id}/complete`: a Kid principal acts on its own `kidId`
claim; a Parent must supply a `kidId` query value and pass the ownership
check (`db.Kids.AnyAsync(k => k.Id == kidId && k.ParentId == parentId)`),
failing `BadRequest("Unknown kidId for this parent.")` otherwise. -/
def resolveEffectiveKid (s : DbState) (p : Principal) (kidIdQuery : Option String) :
    Except AuthErr String :=
  match p with
  | .kid kidClaim _ =>
      if isNullOrWhiteSpace kidClaim then Except.error AuthErr.unauthorized
      else Except.ok kidClaim
  | .parent userId =>
      if isNullOrWhiteSpace userId then Except.error AuthErr.unauthorized
      else
        match kidIdQuery with
        | none => Except.error (AuthErr.badRequest "kidId is required for parent.")
        | some kidId =>
            if isNullOrWhiteSpace kidId then
              Except.error (AuthErr.badRequest "kidId is required for parent.")
            else if s.kids.any (fun k => k.id == kidId && k.parentId == userId) then
              Except.ok kidId
            else
              Except.error (AuthErr.badRequest "Unknown kidId for this parent.")

/-- Handler of `GET /api/points`: role dispatch, then read the materialized balance of
the effective kid. Read-only. -/
def getPoints (s : DbState) (p : Principal) (kidIdQuery : Option String) :
    ApiResult (String × Int) :=
  match resolveEffectiveKid s p kidIdQuery with
  | Except.error e => e.toResult
  | Except.ok effectiveKidId =>
      match s.kids.find? (fun k => k.id == effectiveKidId) with
      | none => ApiResult.notFound (some "Kid not found.")
      | some kid => ApiResult.ok (effectiveKidId, kid.pointsBalance)

/-- Handler of `PUT /api/tasks/{id}/complete`: resolve the effective kid, find the
task assigned to that kid, return it unchanged when already complete,
otherwise mark it complete, credit the kid's balance and append the Earn
ledger row — all in one `SaveChangesAsync`. -/
def completeTask (s : DbState) (p : Principal) (id : Nat) (kidIdQuery : Option String)
    (now : Nat) : ApiResult KidTask × DbState :=
  match resolveEffectiveKid s p kidIdQuery with
  | Except.error e => (e.toResult, s)
  | Except.ok effectiveKidId =>
      match s.tasks.find? (fun t => t.id == id && t.assignedKidId == effectiveKidId) with
      | none => (ApiResult.notFound none, s)
      | some task =>
          if task.isComplete then (ApiResult.ok task, s)
          else
            match s.kids.find? (fun k => k.id == effectiveKidId) with
            | none => (ApiResult.notFound (some "Kid not found."), s)
            | some kid =>
                let task' := { task with isComplete := true, completedAt := some now }
                let kid' := { kid with pointsBalance := wrap32 (kid.pointsBalance + task.points) }
                let txn : PointTransaction :=
                  { id := s.nextTransactionId
                    kidId := kid.id
                    txnType := PointTransactionType.earn
                    delta := task.points
                    taskId := some task.id
                    redemptionId := none
                    note := "Completed task: " ++ task.title
                    createdAtUtc := now }
                let s' := { s with
                  tasks := s.tasks.map (fun t => if t.id == task.id then task' else t)
                  kids := s.kids.map (fun k => if k.id == kid.id then kid' else k)
                  transactions := s.transactions ++ [txn]
                  nextTransactionId := s.nextTransactionId + 1 }
                (ApiResult.ok task', s')

/-- Success payload of `POST /api/rewards/{rewardId}/redeem`. -/
structure RedeemOk where
  kidId : String
  newPoints : Int
  redemption : Redemption
deriving Repr, DecidableEq

/-- The first `SaveChangesAsync` of the redeem handler: commits the balance
deduction on the loaded kid entity together with the new `Redemption` row.
The Spend ledger row is NOT part of this commit. -/
def redeemFirstCommit (s : DbState) (kid : KidProfile) (reward : Reward) (now : Nat) :
    DbState :=
  let kid' := { kid with pointsBalance := wrap32 (kid.pointsBalance - reward.cost) }
  let redemption : Redemption :=
    { id := s.nextRedemptionId, kidId := kid.id, rewardId := reward.id, redeemedAt := now }
  { s with
    kids := s.kids.map (fun k => if k.id == kid.id then kid' else k)
    redemptions := s.redemptions ++ [redemption]
    nextRedemptionId := s.nextRedemptionId + 1 }

/-- The second `SaveChangesAsync` of the redeem handler: appends the Spend
ledger row referencing the redemption committed by the first save. -/
def redeemSecondCommit (s : DbState) (kid : KidProfile) (reward : Reward)
    (redemptionId : Nat) (now : Nat) : DbState :=
  let txn : PointTransaction :=
    { id := s.nextTransactionId
      kidId := kid.id
      txnType := PointTransactionType.spend
      delta := -reward.cost
      taskId := none
      redemptionId := some redemptionId
      note := "Redeemed reward: " ++ reward.name
      createdAtUtc := now }
  { s with
    transactions := s.transactions ++ [txn]
    nextTransactionId := s.nextTransactionId + 1 }

/-- The check-and-commit portion of the redeem handler, taking the kid and
reward entities as loaded by this request's DbContext.  `s` is the state
the commits apply to; under a racing request it can be newer than the
state the entities were loaded from, in which case `SaveChangesAsync`
still writes the stale entity values (last writer wins on the kid row). -/
def redeemCommits (s : DbState) (kid : KidProfile) (reward : Reward) (now : Nat) :
    ApiResult RedeemOk × DbState :=
  if kid.pointsBalance < reward.cost then (ApiResult.badRequest "Not enough points.", s)
  else
    let s1 := redeemFirstCommit s kid reward now
    let s2 := redeemSecondCommit s1 kid reward s.nextRedemptionId now
    (ApiResult.ok
      { kidId := kid.id
        newPoints := wrap32 (kid.pointsBalance - reward.cost)
        redemption :=
          { id := s.nextRedemptionId, kidId := kid.id, rewardId := reward.id,
            redeemedAt := now } }, s2)

/-- Effective kid id of the redeem handler: the `kidId` claim, falling
back to `GetUserId` (the subject claim). -/
def redeemClaimKid : Principal → String
  | .kid kidClaim _ => kidClaim
  | .parent userId => userId

/-- Handler of `POST /api/rewards/{rewardId}/redeem` run without
interference: the kid and reward entities are loaded from the same state
the commits apply to. -/
def redeem (s : DbState) (p : Principal) (rewardId : Nat) (now : Nat) :
    ApiResult RedeemOk × DbState :=
  if isNullOrWhiteSpace (redeemClaimKid p) then (ApiResult.unauthorized, s)
  else
    match s.kids.find? (fun k => k.id == redeemClaimKid p) with
    | none => (ApiResult.notFound (some "Kid not found."), s)
    | some kid =>
        match s.rewards.find? (fun r => r.id == rewardId) with
        | none => (ApiResult.notFound (some "Reward not found."), s)
        | some reward => redeemCommits s kid reward now

/-- Request DTO `CreateTaskRequest`. -/
structure CreateTaskRequest where
  title : String
  points : Int
  assignedKidId : String
deriving Repr, DecidableEq

/-- Request DTO `UpdateTaskRequest` (all fields optional). -/
structure UpdateTaskRequest where
  title : Option String
  points : Option Int
  assignedKidId : Option String
deriving Repr, DecidableEq

/-- Request DTO `CreateRewardRequest`. -/
structure CreateRewardRequest where
  name : String
  cost : Int
deriving Repr, DecidableEq

/-- Request DTO `UpdateRewardRequest`. -/
structure UpdateRewardRequest where
  name : Option String
  cost : Option Int
deriving Repr, DecidableEq

/-- Request DTO `UpdateTodoRequest`. -/
structure UpdateTodoRequest where
  title : Option String
  isDone : Option Bool
deriving Repr, DecidableEq

/-- Handler of `POST /api/tasks`: the parent may only assign a task to a kid it owns;
`task.Points` is taken from the request with no validation. -/
def createTask (s : DbState) (parentId : String) (req : CreateTaskRequest) :
    ApiResult KidTask × DbState :=
  if isNullOrWhiteSpace parentId then (ApiResult.unauthorized, s)
  else if s.kids.any (fun k => k.id == req.assignedKidId && k.parentId == parentId) then
    let task : KidTask :=
      { id := s.nextTaskId
        title := req.title
        points := req.points
        assignedKidId := req.assignedKidId
        createdByParentId := parentId
        isComplete := false
        completedAt := none }
    (ApiResult.created task, { s with tasks := s.tasks ++ [task], nextTaskId := s.nextTaskId + 1 })
  else (ApiResult.badRequest "Unknown kidId for this parent.", s)

/-- The `Title` step of `PUT /api/tasks/{id}`. -/
def applyTitleUpdate (task : KidTask) (title? : Option String) : Except String KidTask :=
  match title? with
  | none => Except.ok task
  | some t =>
      let title := strTrim t
      if isNullOrWhiteSpace title then Except.error "Title cannot be empty."
      else Except.ok { task with title := title }

/-- The `Points` step of `PUT /api/tasks/{id}`: rejects a negative value. -/
def applyPointsUpdate (task : KidTask) (points? : Option Int) : Except String KidTask :=
  match points? with
  | none => Except.ok task
  | some pts =>
      if pts < 0 then Except.error "Points must be >= 0."
      else Except.ok { task with points := pts }

/-- The `AssignedKidId` step of `PUT /api/tasks/{id}`: the new kid must
still belong to the same parent. -/
def applyAssignedKidUpdate (s : DbState) (parentId : String) (task : KidTask)
    (assignedKidId? : Option String) : Except String KidTask :=
  match assignedKidId? with
  | none => Except.ok task
  | some k =>
      let newKidId := strTrim k
      if isNullOrWhiteSpace newKidId then Except.error "AssignedKidId cannot be empty."
      else if s.kids.any (fun kd => kd.id == newKidId && kd.parentId == parentId) then
        Except.ok { task with assignedKidId := newKidId }
      else Except.error "Unknown kidId for this parent."

/-- Handler of `PUT /api/tasks/{id}`: the creating parent edits title, points and
assignment; a failing check aborts before `SaveChangesAsync`, so the
committed state is unchanged on every error path. -/
def updateTask (s : DbState) (parentId : String) (id : Nat) (req : UpdateTaskRequest) :
    ApiResult KidTask × DbState :=
  if isNullOrWhiteSpace parentId then (ApiResult.unauthorized, s)
  else
    match s.tasks.find? (fun t => t.id == id && t.createdByParentId == parentId) with
    | none => (ApiResult.notFound (some "Task not found."), s)
    | some task =>
        match applyTitleUpdate task req.title with
        | Except.error m => (ApiResult.badRequest m, s)
        | Except.ok t1 =>
            match applyPointsUpdate t1 req.points with
            | Except.error m => (ApiResult.badRequest m, s)
            | Except.ok t2 =>
                match applyAssignedKidUpdate s parentId t2 req.assignedKidId with
                | Except.error m => (ApiResult.badRequest m, s)
                | Except.ok t3 =>
                    (ApiResult.ok t3,
                     { s with tasks := s.tasks.map (fun t => if t.id == task.id then t3 else t) })

/-- Handler of `DELETE /api/tasks/{id}`: removing a task lets the configured
`DeleteBehavior.SetNull` null the `TaskId` of every ledger row that
referenced it (AppDbContext.cs), keeping delta and note. -/
def deleteTask (s : DbState) (parentId : String) (id : Nat) : ApiResult Unit × DbState :=
  if isNullOrWhiteSpace parentId then (ApiResult.unauthorized, s)
  else
    match s.tasks.find? (fun t => t.id == id && t.createdByParentId == parentId) with
    | none => (ApiResult.notFound none, s)
    | some task =>
        (ApiResult.noContent,
         { s with
           tasks := s.tasks.filter (fun t => !(t.id == task.id))
           transactions := s.transactions.map
             (fun tx => if tx.taskId == some task.id then { tx with taskId := none } else tx) })

/-- Handler of `POST /api/kids`: a fresh GUID id, trimmed display name and the default
`PointsBalance = 0`.  A GUID colliding with an existing primary key would
make `SaveChangesAsync` throw, surfacing as a 500. -/
def createKid (s : DbState) (parentId : String) (displayName : String) (newGuid : String) :
    ApiResult KidProfile × DbState :=
  if isNullOrWhiteSpace parentId then (ApiResult.unauthorized, s)
  else if isNullOrWhiteSpace (strTrim displayName) then
    (ApiResult.badRequest "DisplayName is required.", s)
  else if s.kids.any (fun k => k.id == newGuid) then (ApiResult.internalError, s)
  else
    (ApiResult.created
      { id := newGuid, parentId := parentId, displayName := strTrim displayName,
        pointsBalance := 0 },
     { s with kids := s.kids ++
        [{ id := newGuid, parentId := parentId, displayName := strTrim displayName,
           pointsBalance := 0 }] })

/-- Handler of `PUT /api/kids/{kidId}`: rename a kid the parent owns. -/
def updateKid (s : DbState) (parentId : String) (kidId : String) (displayName : String) :
    ApiResult KidProfile × DbState :=
  if isNullOrWhiteSpace parentId then (ApiResult.unauthorized, s)
  else if isNullOrWhiteSpace (strTrim displayName) then
    (ApiResult.badRequest "DisplayName is required.", s)
  else
    match s.kids.find? (fun k => k.id == kidId && k.parentId == parentId) with
    | none => (ApiResult.notFound (some "Kid not found for this parent."), s)
    | some kid =>
        (ApiResult.ok { kid with displayName := strTrim displayName },
         { s with kids := s.kids.map (fun k =>
             if k.id == kid.id then { kid with displayName := strTrim displayName } else k) })

/-- Handler of `POST /api/rewards`: no validation on the cost. -/
def createReward (s : DbState) (req : CreateRewardRequest) : ApiResult Reward × DbState :=
  let reward : Reward := { id := s.nextRewardId, name := req.name, cost := req.cost }
  (ApiResult.created reward,
   { s with rewards := s.rewards ++ [reward], nextRewardId := s.nextRewardId + 1 })

/-- The `Name` step of `PUT /api/rewards/{id}`. -/
def applyRewardNameUpdate (reward : Reward) (name? : Option String) : Except String Reward :=
  match name? with
  | none => Except.ok reward
  | some n =>
      if isNullOrWhiteSpace (strTrim n) then Except.error "Name cannot be empty."
      else Except.ok { reward with name := strTrim n }

/-- Handler of `PUT /api/rewards/{id}`: optional rename and cost change,
negative cost rejected. -/
def updateReward (s : DbState) (id : Nat) (req : UpdateRewardRequest) :
    ApiResult Reward × DbState :=
  match s.rewards.find? (fun r => r.id == id) with
  | none => (ApiResult.notFound (some "Reward not found."), s)
  | some reward =>
      match applyRewardNameUpdate reward req.name with
      | Except.error m => (ApiResult.badRequest m, s)
      | Except.ok r1 =>
          match req.cost with
          | none =>
              (ApiResult.ok r1,
               { s with rewards := s.rewards.map (fun r => if r.id == reward.id then r1 else r) })
          | some c =>
              if c < 0 then (ApiResult.badRequest "Cost must be >= 0.", s)
              else
                (ApiResult.ok { r1 with cost := c },
                 { s with rewards := s.rewards.map (fun r =>
                     if r.id == reward.id then { r1 with cost := c } else r) })

/-- Handler of `DELETE /api/rewards/{id}`: `Redemption.RewardId` is a plain column
(no navigation property, so no foreign key by convention); existing
redemptions stay untouched. -/
def deleteReward (s : DbState) (id : Nat) : ApiResult Unit × DbState :=
  match s.rewards.find? (fun r => r.id == id) with
  | none => (ApiResult.notFound none, s)
  | some reward =>
      (ApiResult.noContent, { s with rewards := s.rewards.filter (fun r => !(r.id == reward.id)) })

/-- Insert a todo into a list sorted by id (models `OrderBy(t => t.Id)`). -/
def insertTodoById (t : TodoItem) : List TodoItem → List TodoItem
  | [] => [t]
  | x :: xs => if t.id ≤ x.id then t :: x :: xs else x :: insertTodoById t xs

/-- Model of `OrderBy(t => t.Id)` over the todos table. -/
def sortTodosById (l : List TodoItem) : List TodoItem := l.foldr insertTodoById []

/-- Handler of `GET /api/todos`: the handler takes only the DbContext — the
authenticated principal (any Parent or Kid) is never consulted, so every
caller sees the one global list. -/
def getTodos (s : DbState) (_p : Principal) : ApiResult (List TodoItem) :=
  ApiResult.ok (sortTodosById s.todos)

/-- Handler of `POST /api/todos`: any Parent or Kid appends to the global list;
the id is reassigned by the autoincrement column. -/
def createTodo (s : DbState) (_p : Principal) (todo : TodoItem) :
    ApiResult TodoItem × DbState :=
  if isNullOrWhiteSpace todo.title then (ApiResult.badRequest "Title is required.", s)
  else
    let todo' := { todo with id := s.nextTodoId, title := strTrim todo.title }
    (ApiResult.created todo',
     { s with todos := s.todos ++ [todo'], nextTodoId := s.nextTodoId + 1 })

/-- Handler of `PUT /api/todos/{id}`: a Kid may only toggle `IsDone` (of any todo);
a Parent may edit title and `IsDone` (of any todo).  No family scoping. -/
def updateTodo (s : DbState) (p : Principal) (id : Nat) (req : UpdateTodoRequest) :
    ApiResult TodoItem × DbState :=
  match s.todos.find? (fun t => t.id == id) with
  | none => (ApiResult.notFound none, s)
  | some todo =>
      match p with
      | .kid _ _ =>
          match req.title with
          | some _ => (ApiResult.forbidden, s)
          | none =>
              match req.isDone with
              | none => (ApiResult.badRequest "IsDone is required.", s)
              | some b =>
                  let todo' := { todo with isDone := b }
                  (ApiResult.ok todo',
                   { s with todos := s.todos.map (fun t => if t.id == todo.id then todo' else t) })
      | .parent _ =>
          let step1 : Except String TodoItem :=
            match req.title with
            | none => Except.ok todo
            | some t =>
                if isNullOrWhiteSpace t then Except.error "Title cannot be empty."
                else Except.ok { todo with title := strTrim t }
          match step1 with
          | Except.error m => (ApiResult.badRequest m, s)
          | Except.ok t1 =>
              let t2 := match req.isDone with
                | none => t1
                | some b => { t1 with isDone := b }
              (ApiResult.ok t2,
               { s with todos := s.todos.map (fun t => if t.id == todo.id then t2 else t) })

/-- Handler of `DELETE /api/todos/{id}`: any Parent or Kid removes any todo. -/
def deleteTodo (s : DbState) (_p : Principal) (id : Nat) : ApiResult Unit × DbState :=
  match s.todos.find? (fun t => t.id == id) with
  | none => (ApiResult.notFound none, s)
  | some todo =>
      (ApiResult.noContent, { s with todos := s.todos.filter (fun t => !(t.id == todo.id)) })

/-- One API mutation, tagged with the calling principal; the constructor
set mirrors the mutating endpoints of Program.cs. -/
inductive Op where
  | createKid (p : Principal) (displayName newGuid : String)
  | updateKid (p : Principal) (kidId displayName : String)
  | createTask (p : Principal) (req : CreateTaskRequest)
  | updateTask (p : Principal) (id : Nat) (req : UpdateTaskRequest)
  | deleteTask (p : Principal) (id : Nat)
  | completeTask (p : Principal) (id : Nat) (kidIdQuery : Option String) (now : Nat)
  | createReward (p : Principal) (req : CreateRewardRequest)
  | updateReward (p : Principal) (id : Nat) (req : UpdateRewardRequest)
  | deleteReward (p : Principal) (id : Nat)
  | redeem (p : Principal) (rewardId : Nat) (now : Nat)
  | createTodo (p : Principal) (todo : TodoItem)
  | updateTodo (p : Principal) (id : Nat) (req : UpdateTodoRequest)
  | deleteTodo (p : Principal) (id : Nat)
deriving Repr

/-- Run one operation against the store.  The authorization policies of
Program.cs gate the handlers: `ParentOnly` endpoints reject Kid tokens and
`KidOnly` rejects Parent tokens before the handler runs, leaving the state
untouched; `KidOrParent` endpoints and the todo endpoints accept both. -/
def applyOp (s : DbState) (op : Op) : DbState :=
  match op with
  | .createKid p name g =>
      match p with
      | .parent userId => (createKid s userId name g).2
      | .kid _ _ => s
  | .updateKid p kidId name =>
      match p with
      | .parent userId => (updateKid s userId kidId name).2
      | .kid _ _ => s
  | .createTask p req =>
      match p with
      | .parent userId => (createTask s userId req).2
      | .kid _ _ => s
  | .updateTask p i req =>
      match p with
      | .parent userId => (updateTask s userId i req).2
      | .kid _ _ => s
  | .deleteTask p i =>
      match p with
      | .parent userId => (deleteTask s userId i).2
      | .kid _ _ => s
  | .completeTask p i q now => (completeTask s p i q now).2
  | .createReward p req =>
      match p with
      | .parent _ => (createReward s req).2
      | .kid _ _ => s
  | .updateReward p i req =>
      match p with
      | .parent _ => (updateReward s i req).2
      | .kid _ _ => s
  | .deleteReward p i =>
      match p with
      | .parent _ => (deleteReward s i).2
      | .kid _ _ => s
  | .redeem p r now =>
      match p with
      | .kid _ _ => (redeem s p r now).2
      | .parent _ => s
  | .createTodo p todo => (createTodo s p todo).2
  | .updateTodo p i req => (updateTodo s p i req).2
  | .deleteTodo p i => (deleteTodo s p i).2

/-- Run a sequence of operations. -/
def applyOps (s : DbState) (ops : List Op) : DbState := ops.foldl applyOp s

/-- Sum of `Delta` over the ledger rows of one kid — the spec's
externally verifiable reconstruction of the balance. -/
def sumDeltaFor (txns : List PointTransaction) (kidId : String) : Int :=
  ((txns.filter (fun t => t.kidId == kidId)).map (fun t => t.delta)).sum

/-- Every kid's materialized balance equals its ledger sum reduced by
the wrapping 32-bit arithmetic the balance is maintained with. -/
def ledgerOk (s : DbState) : Bool :=
  s.kids.all (fun k => k.pointsBalance == wrap32 (sumDeltaFor s.transactions k.id))

/-- Every ledger row references an existing kid (the required FK with
cascade delete in AppDbContext.cs, and no endpoint deletes kids). -/
def txnsScoped (s : DbState) : Bool :=
  s.transactions.all (fun t => s.kids.any (fun k => k.id == t.kidId))

/-- The inductive store invariant. -/
def ledgerInv (s : DbState) : Bool := ledgerOk s && txnsScoped s

theorem ledgerInv_iff (s : DbState) :
    ledgerInv s = true ↔
      ((∀ k ∈ s.kids, k.pointsBalance = wrap32 (sumDeltaFor s.transactions k.id)) ∧
       (∀ t ∈ s.transactions, ∃ k ∈ s.kids, k.id = t.kidId)) := by
  simp [ledgerInv, ledgerOk, txnsScoped, List.all_eq_true, List.any_eq_true]

theorem sumDeltaFor_append (a b : List PointTransaction) (k : String) :
    sumDeltaFor (a ++ b) k = sumDeltaFor a k + sumDeltaFor b k := by
  simp [sumDeltaFor, List.filter_append]

theorem sumDeltaFor_cons (t : PointTransaction) (ts : List PointTransaction) (k : String) :
    sumDeltaFor (t :: ts) k = (if t.kidId == k then t.delta else 0) + sumDeltaFor ts k := by
  by_cases h : t.kidId == k <;> simp [sumDeltaFor, List.filter_cons, h]

theorem sumDeltaFor_singleton (t : PointTransaction) (k : String) :
    sumDeltaFor [t] k = if t.kidId == k then t.delta else 0 := by
  rw [sumDeltaFor_cons]
  simp [sumDeltaFor]

/-- A ledger row of another kid does not change a kid's sum. -/
theorem sumDeltaFor_append_other (ts : List PointTransaction) (t : PointTransaction)
    (k : String) (h : t.kidId ≠ k) :
    sumDeltaFor (ts ++ [t]) k = sumDeltaFor ts k := by
  rw [sumDeltaFor_append, sumDeltaFor_singleton]
  simp [h]

/-- Appending a kid's own ledger row adds its delta to the sum. -/
theorem sumDeltaFor_append_own (ts : List PointTransaction) (t : PointTransaction)
    (k : String) (h : t.kidId = k) :
    sumDeltaFor (ts ++ [t]) k = sumDeltaFor ts k + t.delta := by
  rw [sumDeltaFor_append, sumDeltaFor_singleton]
  simp [h]

/-- Mapping a function that keeps `kidId` and `delta` over the ledger
preserves every kid's sum. -/
theorem sumDeltaFor_map_preserving (f : PointTransaction → PointTransaction)
    (hkf : ∀ t, (f t).kidId = t.kidId) (hdf : ∀ t, (f t).delta = t.delta)
    (txns : List PointTransaction) (k : String) :
    sumDeltaFor (txns.map f) k = sumDeltaFor txns k := by
  induction txns with
  | nil => rfl
  | cons t ts ih =>
      rw [List.map_cons, sumDeltaFor_cons, sumDeltaFor_cons, ih, hkf, hdf]

/-- Nulling task references (the `SetNull` delete behavior) preserves
every kid's ledger sum. -/
theorem sumDeltaFor_nullTask (txns : List PointTransaction) (i : Nat) (k : String) :
    sumDeltaFor
      (txns.map (fun tx => if tx.taskId == some i then { tx with taskId := none } else tx)) k
      = sumDeltaFor txns k :=
  sumDeltaFor_map_preserving _ (fun t => by split <;> rfl) (fun t => by split <;> rfl) txns k

/-- A kid has a zero ledger sum when no row can reference it. -/
theorem sumDeltaFor_eq_zero (txns : List PointTransaction) (kids : List KidProfile)
    (x : String)
    (hscope : ∀ t ∈ txns, ∃ k ∈ kids, k.id = t.kidId)
    (hx : ∀ k ∈ kids, k.id ≠ x) :
    sumDeltaFor txns x = 0 := by
  unfold sumDeltaFor
  have hnil : txns.filter (fun t => t.kidId == x) = [] := by
    rw [List.filter_eq_nil_iff]
    intro t ht
    obtain ⟨k, hk, hkeq⟩ := hscope t ht
    simp only [beq_iff_eq]
    rw [← hkeq]
    exact hx k hk
  rw [hnil]
  rfl

/-- Wrapping a term already wrapped on the left agrees with wrapping
the unreduced sum: `wrap32` only depends on the argument mod 2^32. -/
theorem wrap32_add_left (a b : Int) : wrap32 (wrap32 a + b) = wrap32 (a + b) := by
  unfold wrap32
  omega

/-- The invariant only reads the kids table and the ledger. -/
theorem ledgerInv_frame {s s' : DbState} (hk : s'.kids = s.kids)
    (ht : s'.transactions = s.transactions) (h : ledgerInv s = true) :
    ledgerInv s' = true := by
  unfold ledgerInv ledgerOk txnsScoped at h ⊢
  rw [hk, ht]
  exact h

/-- Replacing one kid row by an entity with the same id and a balance
shifted by exactly the delta of one appended ledger row preserves the
invariant.  This is the shape of both the completion credit and the
redemption debit. -/
theorem ledgerInv_update_append (s : DbState) (kid kid' : KidProfile)
    (txn : PointTransaction) (s' : DbState)
    (hmem : kid ∈ s.kids) (hid : kid'.id = kid.id) (htk : txn.kidId = kid.id)
    (hbal : kid'.pointsBalance = wrap32 (kid.pointsBalance + txn.delta))
    (h : ledgerInv s = true)
    (hk : s'.kids = s.kids.map (fun k => if k.id == kid.id then kid' else k))
    (htx : s'.transactions = s.transactions ++ [txn]) :
    ledgerInv s' = true := by
  obtain ⟨hbals, hscope⟩ := (ledgerInv_iff s).mp h
  have hkidbal : kid.pointsBalance = wrap32 (sumDeltaFor s.transactions kid.id) :=
    hbals kid hmem
  refine (ledgerInv_iff s').mpr ⟨?_, ?_⟩
  · intro k' hk'
    rw [hk] at hk'
    obtain ⟨k, hkmem, rfl⟩ := List.mem_map.mp hk'
    rw [htx]
    simp only [beq_iff_eq]
    by_cases hcase : k.id = kid.id
    · rw [if_pos hcase, hid, sumDeltaFor_append_own _ _ _ htk, hbal, hkidbal]
      exact wrap32_add_left _ _
    · have hne : txn.kidId ≠ k.id := by
        rw [htk]
        exact fun hcontra => hcase hcontra.symm
      rw [if_neg hcase, sumDeltaFor_append_other _ _ _ hne]
      exact hbals k hkmem
  · intro t ht
    rw [htx] at ht
    rw [hk]
    rcases List.mem_append.mp ht with hin | hone
    · obtain ⟨k, hkmem, hkeq⟩ := hscope t hin
      refine ⟨(fun k => if k.id == kid.id then kid' else k) k, List.mem_map_of_mem _ hkmem, ?_⟩
      simp only [beq_iff_eq]
      by_cases hcase : k.id = kid.id
      · rw [if_pos hcase, hid, ← hcase]
        exact hkeq
      · rw [if_neg hcase]
        exact hkeq
    · have ht' : t = txn := by simpa using hone
      refine ⟨(fun k => if k.id == kid.id then kid' else k) kid, List.mem_map_of_mem _ hmem, ?_⟩
      rw [ht', htk]
      simp [hid]

/-- Replacing one kid row by an entity with the same id and the same
balance (a rename) preserves the invariant. -/
theorem ledgerInv_update_same (s : DbState) (kid kid' : KidProfile) (s' : DbState)
    (hmem : kid ∈ s.kids) (hid : kid'.id = kid.id)
    (hbal : kid'.pointsBalance = kid.pointsBalance)
    (h : ledgerInv s = true)
    (hk : s'.kids = s.kids.map (fun k => if k.id == kid.id then kid' else k))
    (htx : s'.transactions = s.transactions) :
    ledgerInv s' = true := by
  obtain ⟨hbals, hscope⟩ := (ledgerInv_iff s).mp h
  refine (ledgerInv_iff s').mpr ⟨?_, ?_⟩
  · intro k' hk'
    rw [hk] at hk'
    obtain ⟨k, hkmem, rfl⟩ := List.mem_map.mp hk'
    rw [htx]
    simp only [beq_iff_eq]
    by_cases hcase : k.id = kid.id
    · rw [if_pos hcase, hid, hbal]
      exact hbals kid hmem
    · rw [if_neg hcase]
      exact hbals k hkmem
  · intro t ht
    rw [htx] at ht
    rw [hk]
    obtain ⟨k, hkmem, hkeq⟩ := hscope t ht
    refine ⟨(fun k => if k.id == kid.id then kid' else k) k, List.mem_map_of_mem _ hkmem, ?_⟩
    simp only [beq_iff_eq]
    by_cases hcase : k.id = kid.id
    · rw [if_pos hcase, hid, ← hcase]
      exact hkeq
    · rw [if_neg hcase]
      exact hkeq

theorem ledgerInv_createTask (s : DbState) (pid : String) (req : CreateTaskRequest)
    (h : ledgerInv s = true) : ledgerInv (createTask s pid req).2 = true := by
  unfold createTask
  repeat' split
  all_goals exact ledgerInv_frame rfl rfl h

theorem ledgerInv_updateTask (s : DbState) (pid : String) (i : Nat) (req : UpdateTaskRequest)
    (h : ledgerInv s = true) : ledgerInv (updateTask s pid i req).2 = true := by
  unfold updateTask
  repeat' split
  all_goals exact ledgerInv_frame rfl rfl h

theorem ledgerInv_createReward (s : DbState) (req : CreateRewardRequest)
    (h : ledgerInv s = true) : ledgerInv (createReward s req).2 = true := by
  unfold createReward
  exact ledgerInv_frame rfl rfl h

theorem ledgerInv_updateReward (s : DbState) (i : Nat) (req : UpdateRewardRequest)
    (h : ledgerInv s = true) : ledgerInv (updateReward s i req).2 = true := by
  unfold updateReward
  repeat' split
  all_goals exact ledgerInv_frame rfl rfl h

theorem ledgerInv_deleteReward (s : DbState) (i : Nat)
    (h : ledgerInv s = true) : ledgerInv (deleteReward s i).2 = true := by
  unfold deleteReward
  repeat' split
  all_goals exact ledgerInv_frame rfl rfl h

theorem ledgerInv_createTodo (s : DbState) (p : Principal) (todo : TodoItem)
    (h : ledgerInv s = true) : ledgerInv (createTodo s p todo).2 = true := by
  unfold createTodo
  repeat' split
  all_goals exact ledgerInv_frame rfl rfl h

theorem ledgerInv_updateTodo (s : DbState) (p : Principal) (i : Nat) (req : UpdateTodoRequest)
    (h : ledgerInv s = true) : ledgerInv (updateTodo s p i req).2 = true := by
  unfold updateTodo
  repeat' split
  all_goals exact ledgerInv_frame rfl rfl h

theorem ledgerInv_deleteTodo (s : DbState) (p : Principal) (i : Nat)
    (h : ledgerInv s = true) : ledgerInv (deleteTodo s p i).2 = true := by
  unfold deleteTodo
  repeat' split
  all_goals exact ledgerInv_frame rfl rfl h

theorem ledgerInv_deleteTask (s : DbState) (pid : String) (i : Nat)
    (h : ledgerInv s = true) : ledgerInv (deleteTask s pid i).2 = true := by
  unfold deleteTask
  split
  · exact h
  split
  · exact h
  next task htask =>
    obtain ⟨hbals, hscope⟩ := (ledgerInv_iff s).mp h
    refine (ledgerInv_iff _).mpr ⟨?_, ?_⟩
    · intro k hk
      show k.pointsBalance = wrap32 (sumDeltaFor (s.transactions.map
        (fun tx => if tx.taskId == some task.id then { tx with taskId := none } else tx)) k.id)
      rw [sumDeltaFor_nullTask]
      exact hbals k hk
    · intro t ht
      obtain ⟨tx, htx, rfl⟩ := List.mem_map.mp ht
      obtain ⟨k, hkmem, hkeq⟩ := hscope tx htx
      refine ⟨k, hkmem, ?_⟩
      rw [hkeq]
      split <;> rfl

theorem ledgerInv_createKid (s : DbState) (pid name g : String)
    (h : ledgerInv s = true) : ledgerInv (createKid s pid name g).2 = true := by
  unfold createKid
  split
  · exact h
  split
  · exact h
  split
  · exact h
  next hdup =>
    obtain ⟨hbals, hscope⟩ := (ledgerInv_iff s).mp h
    have hno : ∀ k ∈ s.kids, k.id ≠ g := by
      intro k hk hcontra
      exact hdup (List.any_eq_true.mpr ⟨k, hk, beq_iff_eq.mpr hcontra⟩)
    refine (ledgerInv_iff _).mpr ⟨?_, ?_⟩
    · intro k hkmem
      rcases List.mem_append.mp hkmem with hold | hnew
      · exact hbals k hold
      · have hknew :
            k = { id := g, parentId := pid, displayName := strTrim name, pointsBalance := 0 } := by
          simpa using hnew
        rw [hknew]
        show (0 : Int) = wrap32 (sumDeltaFor s.transactions g)
        rw [sumDeltaFor_eq_zero s.transactions s.kids g hscope hno]
        decide
    · intro t ht
      obtain ⟨k, hkmem, hkeq⟩ := hscope t ht
      exact ⟨k, List.mem_append_left _ hkmem, hkeq⟩

theorem ledgerInv_updateKid (s : DbState) (pid kidId name : String)
    (h : ledgerInv s = true) : ledgerInv (updateKid s pid kidId name).2 = true := by
  unfold updateKid
  split
  · exact h
  split
  · exact h
  split
  · exact h
  next kid hkid =>
    exact ledgerInv_update_same s kid { kid with displayName := strTrim name } _
      (List.mem_of_find?_eq_some hkid) rfl rfl h rfl rfl

theorem ledgerInv_completeTask (s : DbState) (p : Principal) (i : Nat)
    (q : Option String) (now : Nat) (h : ledgerInv s = true) :
    ledgerInv (completeTask s p i q now).2 = true := by
  unfold completeTask
  split
  · exact h
  next eff heff =>
    split
    · exact h
    next task htask =>
      split
      · exact h
      next hnc =>
        split
        · exact h
        next kid hkid =>
          exact ledgerInv_update_append s kid
            { kid with pointsBalance := wrap32 (kid.pointsBalance + task.points) } _ _
            (List.mem_of_find?_eq_some hkid) rfl rfl rfl h rfl rfl

theorem ledgerInv_redeem (s : DbState) (p : Principal) (r : Nat) (now : Nat)
    (h : ledgerInv s = true) : ledgerInv (redeem s p r now).2 = true := by
  unfold redeem
  split
  · exact h
  split
  · exact h
  next kid hkid =>
    split
    · exact h
    next reward hreward =>
      unfold redeemCommits redeemFirstCommit redeemSecondCommit
      split
      · exact h
      next hge =>
        exact ledgerInv_update_append s kid
          { kid with pointsBalance := wrap32 (kid.pointsBalance - reward.cost) } _ _
          (List.mem_of_find?_eq_some hkid) rfl rfl (by rw [sub_eq_add_neg]) h rfl rfl

/-- Every single API mutation preserves the ledger invariant. -/
theorem ledgerInv_applyOp (s : DbState) (op : Op) (h : ledgerInv s = true) :
    ledgerInv (applyOp s op) = true := by
  cases op with
  | createKid p name g =>
      cases p with
      | parent uid => exact ledgerInv_createKid s uid name g h
      | kid _ _ => exact h
  | updateKid p kidId name =>
      cases p with
      | parent uid => exact ledgerInv_updateKid s uid kidId name h
      | kid _ _ => exact h
  | createTask p req =>
      cases p with
      | parent uid => exact ledgerInv_createTask s uid req h
      | kid _ _ => exact h
  | updateTask p i req =>
      cases p with
      | parent uid => exact ledgerInv_updateTask s uid i req h
      | kid _ _ => exact h
  | deleteTask p i =>
      cases p with
      | parent uid => exact ledgerInv_deleteTask s uid i h
      | kid _ _ => exact h
  | completeTask p i q now => exact ledgerInv_completeTask s p i q now h
  | createReward p req =>
      cases p with
      | parent _ => exact ledgerInv_createReward s req h
      | kid _ _ => exact h
  | updateReward p i req =>
      cases p with
      | parent _ => exact ledgerInv_updateReward s i req h
      | kid _ _ => exact h
  | deleteReward p i =>
      cases p with
      | parent _ => exact ledgerInv_deleteReward s i h
      | kid _ _ => exact h
  | redeem p r now =>
      cases p with
      | kid a b => exact ledgerInv_redeem s (Principal.kid a b) r now h
      | parent _ => exact h
  | createTodo p todo => exact ledgerInv_createTodo s p todo h
  | updateTodo p i req => exact ledgerInv_updateTodo s p i req h
  | deleteTodo p i => exact ledgerInv_deleteTodo s p i h

/-- Sequences of API mutations preserve the ledger invariant. -/
theorem ledgerInv_applyOps (ops : List Op) (s : DbState) (h : ledgerInv s = true) :
    ledgerInv (applyOps s ops) = true := by
  induction ops generalizing s with
  | nil => exact h
  | cons o os ih => exact ih (applyOp s o) (ledgerInv_applyOp s o h)

/-- C1 (amended): for every kid, after every successfully completed API
operation (task completion, reward redemption, and all other mutations),
the kid's materialized `PointsBalance` equals the sum of `Delta` over the
kid's `PointTransaction` rows REDUCED BY THE WRAPPING 32-BIT ARITHMETIC
the C# `int` balance is maintained with (balance = sum mod 2^32,
represented in [-2^31, 2^31)).  The unreduced equality of the original
claim fails — see the counterexample — because the balance wraps while
the ledger sum grows unboundedly. -/
theorem c1_balance_eq_ledger_sum_mod32 (s : DbState) (ops : List Op)
    (h : ledgerInv s = true) :
    ∀ k ∈ (applyOps s ops).kids,
      k.pointsBalance = wrap32 (sumDeltaFor (applyOps s ops).transactions k.id) :=
  ((ledgerInv_iff (applyOps s ops)).mp (ledgerInv_applyOps ops s h)).1

/-- The seeded store of Program.cs: two kids with balance 0, a 50-point
task and a reward, no ledger rows. -/
def seedState : DbState :=
  { kids := [{ id := "kid-1", parentId := "p1", displayName := "Kid 1", pointsBalance := 0 },
             { id := "kid-2", parentId := "p1", displayName := "Kid 2", pointsBalance := 0 }]
    tasks := [{ id := 1, title := "Brush Teeth", points := 50, assignedKidId := "kid-1",
                createdByParentId := "p1", isComplete := false, completedAt := none }]
    rewards := [{ id := 1, name := "Ice Cream", cost := 30 }]
    redemptions := []
    transactions := []
    todos := []
    nextTaskId := 2
    nextRewardId := 2
    nextRedemptionId := 1
    nextTransactionId := 1
    nextTodoId := 1 }

/-- A concrete operation sequence: the kid completes the task, then
redeems the reward. -/
def seedOps : List Op :=
  [Op.completeTask (Principal.kid "kid-1" "p1") 1 none 10,
   Op.redeem (Principal.kid "kid-1" "p1") 1 11]

theorem c1_balance_eq_ledger_sum_mod32_witness :
    ledgerInv seedState = true ∧
    ∀ k ∈ (applyOps seedState seedOps).kids,
      k.pointsBalance = wrap32 (sumDeltaFor (applyOps seedState seedOps).transactions k.id) :=
  ⟨by decide, c1_balance_eq_ledger_sum_mod32 seedState seedOps (by decide)⟩

/-- The store of the redemption scenarios: one kid with balance 100
(backed by a single 100-point Earn row) and a reward costing 80. -/
def raceState : DbState :=
  { kids := [{ id := "kid-1", parentId := "p1", displayName := "Kid 1", pointsBalance := 100 }]
    tasks := []
    rewards := [{ id := 1, name := "Toy", cost := 80 }]
    redemptions := []
    transactions := [{ id := 1, kidId := "kid-1", txnType := PointTransactionType.earn,
                       delta := 100, taskId := none, redemptionId := none, note := "seed",
                       createdAtUtc := 1 }]
    todos := []
    nextTaskId := 1
    nextRewardId := 2
    nextRedemptionId := 1
    nextTransactionId := 2
    nextTodoId := 1 }

/-- The kid entity as loaded from `raceState` by a redeem request. -/
def raceKid : KidProfile :=
  { id := "kid-1", parentId := "p1", displayName := "Kid 1", pointsBalance := 100 }

/-- The reward entity as loaded from `raceState`. -/
def raceReward : Reward := { id := 1, name := "Toy", cost := 80 }

/-- C2 (refuted by the code): the redeem handler has no per-kid
serialization — the balance check runs on the kid entity its own request
loaded, with `await` suspension points before the commits.  In the
interleaving in which both requests load the kid row (balance 100) from
the same committed state and then commit one after the other, BOTH
redemptions succeed: the final state holds two Redemption rows and two
Spend ledger rows, and the kid row ends at balance 20 because the second
writer overwrites the first (last writer wins), not because only one
spend happened. -/
theorem c2_concurrent_redeems_both_succeed :
    raceState.kids.find? (fun k => k.id == redeemClaimKid (Principal.kid "kid-1" "p1"))
        = some raceKid
    ∧ raceState.rewards.find? (fun r => r.id == 1) = some raceReward
    ∧ (redeemCommits raceState raceKid raceReward 10).1.isOk = true
    ∧ (redeemCommits (redeemCommits raceState raceKid raceReward 10).2
        raceKid raceReward 11).1.isOk = true
    ∧ (redeemCommits (redeemCommits raceState raceKid raceReward 10).2
        raceKid raceReward 11).2.kids
        = [{ id := "kid-1", parentId := "p1", displayName := "Kid 1", pointsBalance := 20 }]
    ∧ (redeemCommits (redeemCommits raceState raceKid raceReward 10).2
        raceKid raceReward 11).2.redemptions.length = 2
    ∧ ((redeemCommits (redeemCommits raceState raceKid raceReward 10).2
        raceKid raceReward 11).2.transactions.filter
          (fun t => t.kidId == "kid-1" && t.txnType == PointTransactionType.spend)).length
        = 2 := by
  decide

/-- C3 (refuted by the code): a successful redemption is committed in two
separate `SaveChangesAsync` calls.  The handler's final state factors
through `redeemFirstCommit`, whose committed intermediate state already
holds the balance deduction and the Redemption row but not yet the Spend
ledger row — so a state with only some of the three effects applied IS
committed, and a failure before the second save would leave it behind
(it even violates the balance-equals-ledger invariant). -/
theorem c3_redeem_commits_partial_state :
    (redeem raceState (Principal.kid "kid-1" "p1") 1 10).2
      = redeemSecondCommit (redeemFirstCommit raceState raceKid raceReward 10)
          raceKid raceReward raceState.nextRedemptionId 10
    ∧ (redeemFirstCommit raceState raceKid raceReward 10).kids
        = [{ id := "kid-1", parentId := "p1", displayName := "Kid 1", pointsBalance := 20 }]
    ∧ (redeemFirstCommit raceState raceKid raceReward 10).redemptions.length = 1
    ∧ ((redeemFirstCommit raceState raceKid raceReward 10).transactions.filter
        (fun t => t.txnType == PointTransactionType.spend)).length = 0
    ∧ ledgerOk (redeemFirstCommit raceState raceKid raceReward 10) = false := by
  decide

/-- A store with a single kid at balance 0 and no tasks. -/
def freshKidState : DbState :=
  { kids := [{ id := "kid-1", parentId := "p1", displayName := "Kid 1", pointsBalance := 0 }]
    tasks := []
    rewards := []
    redemptions := []
    transactions := []
    todos := []
    nextTaskId := 1
    nextRewardId := 1
    nextRedemptionId := 1
    nextTransactionId := 1
    nextTodoId := 1 }

/-- C7 (refuted by the code): `POST /api/tasks` accepts a negative Points
value, and completing such a task drives the kid's persisted
`PointsBalance` below zero — from the all-zero seeded store, creating a
task worth -50 points and completing it commits a kid row with balance
-50. -/
theorem c7_negative_balance_reachable :
    (createTask freshKidState "p1"
        { title := "Clean room", points := -50, assignedKidId := "kid-1" }).1
      = ApiResult.created
          { id := 1, title := "Clean room", points := -50, assignedKidId := "kid-1",
            createdByParentId := "p1", isComplete := false, completedAt := none }
    ∧ (completeTask (createTask freshKidState "p1"
          { title := "Clean room", points := -50, assignedKidId := "kid-1" }).2
         (Principal.kid "kid-1" "p1") 1 none 5).1.isOk = true
    ∧ (completeTask (createTask freshKidState "p1"
          { title := "Clean room", points := -50, assignedKidId := "kid-1" }).2
         (Principal.kid "kid-1" "p1") 1 none 5).2.kids
        = [{ id := "kid-1", parentId := "p1", displayName := "Kid 1",
             pointsBalance := -50 }] := by
  decide

/-- C8 (refuted by the code in its creation half): `POST /api/tasks`
copies `req.Points` into the new task with no validation, so a task with
Points = -5 is created and stored; `PUT /api/tasks/{id}` does reject a
negative value with `BadRequest("Points must be >= 0.")` and leaves the
store unchanged. -/
theorem c8_createTask_accepts_negative_points :
    (createTask freshKidState "p1"
        { title := "Chore", points := -5, assignedKidId := "kid-1" }).1
      = ApiResult.created
          { id := 1, title := "Chore", points := -5, assignedKidId := "kid-1",
            createdByParentId := "p1", isComplete := false, completedAt := none }
    ∧ ({ id := 1, title := "Chore", points := -5, assignedKidId := "kid-1",
         createdByParentId := "p1", isComplete := false, completedAt := none } : KidTask)
        ∈ (createTask freshKidState "p1"
            { title := "Chore", points := -5, assignedKidId := "kid-1" }).2.tasks
    ∧ updateTask (createTask freshKidState "p1"
          { title := "Chore", points := -5, assignedKidId := "kid-1" }).2
        "p1" 1 { title := none, points := some (-1), assignedKidId := none }
      = (ApiResult.badRequest "Points must be >= 0.",
         (createTask freshKidState "p1"
            { title := "Chore", points := -5, assignedKidId := "kid-1" }).2) := by
  decide

/-- C4: invoking task completion on a task whose state is already
Complete returns the task unchanged and is a no-op: the result is
`Ok(task)` with the very same committed state, so no second Earn row, no
balance change and no new `CompletedAt` — completing twice has exactly
the effect of completing once. -/
theorem c4_completeTask_idempotent (s : DbState) (p : Principal) (i : Nat)
    (q : Option String) (now : Nat) (eff : String) (t : KidTask)
    (hres : resolveEffectiveKid s p q = Except.ok eff)
    (ht : s.tasks.find? (fun x => x.id == i && x.assignedKidId == eff) = some t)
    (hc : t.isComplete = true) :
    completeTask s p i q now = (ApiResult.ok t, s) := by
  unfold completeTask
  rw [hres]
  simp only [ht, hc, if_true]

/-- The already-completed task used by the C4 witness. -/
def doneTask : KidTask :=
  { id := 1, title := "Brush Teeth", points := 50, assignedKidId := "kid-1",
    createdByParentId := "p1", isComplete := true, completedAt := some 3 }

/-- A store whose single task is already complete, consistently
ledgered. -/
def doneState : DbState :=
  { kids := [{ id := "kid-1", parentId := "p1", displayName := "Kid 1", pointsBalance := 50 }]
    tasks := [doneTask]
    rewards := []
    redemptions := []
    transactions := [{ id := 1, kidId := "kid-1", txnType := PointTransactionType.earn,
                       delta := 50, taskId := some 1, redemptionId := none,
                       note := "Completed task: Brush Teeth", createdAtUtc := 3 }]
    todos := []
    nextTaskId := 2
    nextRewardId := 1
    nextRedemptionId := 1
    nextTransactionId := 2
    nextTodoId := 1 }

theorem c4_completeTask_idempotent_witness :
    completeTask doneState (Principal.kid "kid-1" "p1") 1 none 9
      = (ApiResult.ok doneTask, doneState) :=
  c4_completeTask_idempotent doneState (Principal.kid "kid-1" "p1") 1 none 9 "kid-1"
    doneTask (by rfl) (by rfl) (by rfl)

/-- C5: for every kid and every existing reward, if the kid's balance is
strictly below the reward's cost, redeeming fails with
`BadRequest("Not enough points.")` and the whole committed state — the
balance, the Redemptions table and the ledger — is returned unchanged. -/
theorem c5_insufficient_points_unchanged (s : DbState) (kidId parentId : String)
    (rewardId : Nat) (now : Nat) (kid : KidProfile) (reward : Reward)
    (hws : isNullOrWhiteSpace kidId = false)
    (hk : s.kids.find? (fun k => k.id == kidId) = some kid)
    (hr : s.rewards.find? (fun r => r.id == rewardId) = some reward)
    (hlt : kid.pointsBalance < reward.cost) :
    redeem s (Principal.kid kidId parentId) rewardId now
      = (ApiResult.badRequest "Not enough points.", s) := by
  unfold redeem redeemCommits redeemClaimKid
  simp [hws, hk, hr, hlt]

/-- A store with one kid at balance 10 (one Earn row) and a reward
costing 80. -/
def poorState : DbState :=
  { kids := [{ id := "kid-1", parentId := "p1", displayName := "Kid 1", pointsBalance := 10 }]
    tasks := []
    rewards := [{ id := 1, name := "Toy", cost := 80 }]
    redemptions := []
    transactions := [{ id := 1, kidId := "kid-1", txnType := PointTransactionType.earn,
                       delta := 10, taskId := none, redemptionId := none, note := "seed",
                       createdAtUtc := 1 }]
    todos := []
    nextTaskId := 1
    nextRewardId := 2
    nextRedemptionId := 1
    nextTransactionId := 2
    nextTodoId := 1 }

theorem c5_insufficient_points_unchanged_witness :
    redeem poorState (Principal.kid "kid-1" "p1") 1 7
      = (ApiResult.badRequest "Not enough points.", poorState) :=
  c5_insufficient_points_unchanged poorState "kid-1" "p1" 1 7
    { id := "kid-1", parentId := "p1", displayName := "Kid 1", pointsBalance := 10 }
    { id := 1, name := "Toy", cost := 80 } (by decide) (by decide) (by decide) (by decide)

/-- C6: for a Parent principal and any requested kidId it does not own —
whether that kid belongs to a different parent or does not exist at all,
both covered by the single ownership hypothesis — the kid-scoped
endpoints return the one constant result
`BadRequest("Unknown kidId for this parent.")`: the same error in both
cases, never the kid's data, and (for task completion) an unchanged
state. -/
theorem c6_unknown_kid_uniform_error (s : DbState) (parentId kidId : String)
    (tid : Nat) (now : Nat)
    (hp : isNullOrWhiteSpace parentId = false)
    (hq : isNullOrWhiteSpace kidId = false)
    (hown : s.kids.any (fun k => k.id == kidId && k.parentId == parentId) = false) :
    getPoints s (Principal.parent parentId) (some kidId)
        = ApiResult.badRequest "Unknown kidId for this parent."
    ∧ completeTask s (Principal.parent parentId) tid (some kidId) now
        = (ApiResult.badRequest "Unknown kidId for this parent.", s) := by
  have hres : resolveEffectiveKid s (Principal.parent parentId) (some kidId)
      = Except.error (AuthErr.badRequest "Unknown kidId for this parent.") := by
    unfold resolveEffectiveKid
    simp [hp, hq, hown]
  constructor
  · unfold getPoints
    rw [hres]
    rfl
  · unfold completeTask
    rw [hres]
    rfl

/-- A store holding only a kid owned by parent p2; parent p1 owns
nothing.  Requesting this kid as p1 (foreign kid) and requesting a
non-existent kid as p1 hit the same hypothesis of the C6 theorem. -/
def foreignState : DbState :=
  { kids := [{ id := "kid-9", parentId := "p2", displayName := "Other Kid", pointsBalance := 0 }]
    tasks := []
    rewards := []
    redemptions := []
    transactions := []
    todos := []
    nextTaskId := 1
    nextRewardId := 1
    nextRedemptionId := 1
    nextTransactionId := 1
    nextTodoId := 1 }

theorem c6_unknown_kid_uniform_error_witness :
    getPoints foreignState (Principal.parent "p1") (some "kid-9")
        = ApiResult.badRequest "Unknown kidId for this parent."
    ∧ completeTask foreignState (Principal.parent "p1") 1 (some "kid-9") 5
        = (ApiResult.badRequest "Unknown kidId for this parent.", foreignState) :=
  c6_unknown_kid_uniform_error foreignState "p1" "kid-9" 1 5 (by decide) (by decide)
    (by decide)

/-- C9: the todo endpoints are not tenant-scoped.  `GET /api/todos`
returns the one global list identically for every authenticated
principal; a Kid of ANY family may toggle `IsDone` of any todo (but not
its title); a Parent of ANY family may edit title and `IsDone` of any
todo; any principal may create a todo and delete any todo.  None of the
handlers consults the caller's family. -/
theorem c9_todos_not_tenant_scoped (s : DbState) :
    (∀ p q : Principal, getTodos s p = getTodos s q)
    ∧ (∀ (kidId parentId : String) (i : Nat) (b : Bool) (todo : TodoItem),
        s.todos.find? (fun t => t.id == i) = some todo →
        updateTodo s (Principal.kid kidId parentId) i { title := none, isDone := some b }
          = (ApiResult.ok { todo with isDone := b },
             { s with todos := s.todos.map (fun t =>
                 if t.id == todo.id then { todo with isDone := b } else t) }))
    ∧ (∀ (userId : String) (i : Nat) (ttl : String) (b : Bool) (todo : TodoItem),
        s.todos.find? (fun t => t.id == i) = some todo →
        isNullOrWhiteSpace ttl = false →
        updateTodo s (Principal.parent userId) i { title := some ttl, isDone := some b }
          = (ApiResult.ok { todo with title := strTrim ttl, isDone := b },
             { s with todos := s.todos.map (fun t =>
                 if t.id == todo.id then { todo with title := strTrim ttl, isDone := b }
                 else t) }))
    ∧ (∀ (p : Principal) (i : Nat) (todo : TodoItem),
        s.todos.find? (fun t => t.id == i) = some todo →
        deleteTodo s p i
          = (ApiResult.noContent,
             { s with todos := s.todos.filter (fun t => !(t.id == todo.id)) }))
    ∧ (∀ (p : Principal) (todo : TodoItem),
        isNullOrWhiteSpace todo.title = false →
        (createTodo s p todo).1
          = ApiResult.created { todo with id := s.nextTodoId, title := strTrim todo.title }) := by
  refine ⟨fun p q => rfl, ?_, ?_, ?_, ?_⟩
  · intro kidId parentId i b todo h
    unfold updateTodo
    rw [h]
  · intro userId i ttl b todo h httl
    unfold updateTodo
    simp [h, httl]
  · intro p i todo h
    unfold deleteTodo
    rw [h]
  · intro p todo h
    unfold createTodo
    simp [h]

/-- A store with one todo and no family data. -/
def todoState : DbState :=
  { kids := []
    tasks := []
    rewards := []
    redemptions := []
    transactions := []
    todos := [{ id := 1, title := "Water plants", isDone := false }]
    nextTaskId := 1
    nextRewardId := 1
    nextRedemptionId := 1
    nextTransactionId := 1
    nextTodoId := 2 }

theorem c9_todos_not_tenant_scoped_witness :
    getTodos todoState (Principal.parent "p1")
        = getTodos todoState (Principal.kid "kid-x" "p9")
    ∧ updateTodo todoState (Principal.kid "kid-x" "p9") 1
        { title := none, isDone := some true }
        = (ApiResult.ok { id := 1, title := "Water plants", isDone := true },
           { todoState with todos := todoState.todos.map (fun t =>
               if t.id == 1 then { id := 1, title := "Water plants", isDone := true }
               else t) }) :=
  ⟨(c9_todos_not_tenant_scoped todoState).1 (Principal.parent "p1")
      (Principal.kid "kid-x" "p9"),
   (c9_todos_not_tenant_scoped todoState).2.1 "kid-x" "p9" 1 true
      { id := 1, title := "Water plants", isDone := false } (by rfl)⟩

/-- Equation of the `Title` step when no title is supplied. -/
theorem applyTitleUpdate_none (t : KidTask) : applyTitleUpdate t none = Except.ok t := rfl

/-- Equation of the `Points` step for a non-negative value. -/
theorem applyPointsUpdate_nonneg (t : KidTask) (p : Int) (h : 0 ≤ p) :
    applyPointsUpdate t (some p) = Except.ok { t with points := p } := by
  simp only [applyPointsUpdate]
  rw [if_neg (not_lt.mpr h)]

/-- Equation of the `AssignedKidId` step when the trimmed new kid id is
non-empty and owned by the parent. -/
theorem applyAssignedKidUpdate_owned (s : DbState) (pid : String) (t : KidTask) (k : String)
    (hne : isNullOrWhiteSpace (strTrim k) = false)
    (hkid : s.kids.any (fun kd => kd.id == strTrim k && kd.parentId == pid) = true) :
    applyAssignedKidUpdate s pid t (some k)
      = Except.ok { t with assignedKidId := strTrim k } := by
  unfold applyAssignedKidUpdate
  simp [hne, hkid]

/-- C10: the creating parent may edit a task's Points and AssignedKidId
even when the task is already Complete; the edit rewrites only the tasks
table — the kids table (hence every PointsBalance) and the ledger (hence
the Earn row's original Delta) are exactly unchanged. -/
theorem c10_updateTask_complete_frame (s : DbState) (parentId : String) (i : Nat)
    (pts : Int) (newKid : String) (t : KidTask)
    (hws : isNullOrWhiteSpace parentId = false)
    (ht : s.tasks.find? (fun x => x.id == i && x.createdByParentId == parentId) = some t)
    (hc : t.isComplete = true)
    (hpts : 0 ≤ pts)
    (hne : isNullOrWhiteSpace (strTrim newKid) = false)
    (hkid : s.kids.any (fun kd => kd.id == strTrim newKid && kd.parentId == parentId) = true) :
    updateTask s parentId i
        { title := none, points := some pts, assignedKidId := some newKid }
      = (ApiResult.ok { t with points := pts, assignedKidId := strTrim newKid },
         { s with tasks := s.tasks.map (fun x =>
             if x.id == t.id then { t with points := pts, assignedKidId := strTrim newKid }
             else x) })
    ∧ ({ t with points := pts, assignedKidId := strTrim newKid }).isComplete = true
    ∧ (updateTask s parentId i
        { title := none, points := some pts, assignedKidId := some newKid }).2.kids = s.kids
    ∧ (updateTask s parentId i
        { title := none, points := some pts, assignedKidId := some newKid }).2.transactions
        = s.transactions := by
  have hmain : updateTask s parentId i
      { title := none, points := some pts, assignedKidId := some newKid }
      = (ApiResult.ok { t with points := pts, assignedKidId := strTrim newKid },
         { s with tasks := s.tasks.map (fun x =>
             if x.id == t.id then { t with points := pts, assignedKidId := strTrim newKid }
             else x) }) := by
    unfold updateTask
    simp only [hws, Bool.false_eq_true, if_false, ht, applyTitleUpdate_none,
      applyPointsUpdate_nonneg t pts hpts,
      applyAssignedKidUpdate_owned s parentId { t with points := pts } newKid hne hkid]
  refine ⟨hmain, hc, ?_, ?_⟩
  · rw [hmain]
  · rw [hmain]

theorem c10_updateTask_complete_frame_witness :
    (updateTask doneState "p1" 1
        { title := none, points := some 70, assignedKidId := some "kid-1" }).2.kids
      = doneState.kids
    ∧ (updateTask doneState "p1" 1
        { title := none, points := some 70, assignedKidId := some "kid-1" }).2.transactions
      = doneState.transactions :=
  (fun h => ⟨h.2.2.1, h.2.2.2⟩)
    (c10_updateTask_complete_frame doneState "p1" 1 70 "kid-1" doneTask (by rfl) (by rfl)
      (by rfl) (by decide) (by rfl) (by rfl))

/-- C1 as stated is false of the code: the balance is an unchecked C#
`int` while the ledger keeps each award at full value.  `POST /api/tasks`
accepts `Points = 2147483647` with no validation, and completing two such
tasks for one kid wraps the committed balance to -2 although the two Earn
rows sum to 4294967294 — so after four successfully completed API
operations the materialized `PointsBalance` differs from the sum of
`Delta` over the kid's rows. -/
theorem c1_balance_overflow_counterexample :
    (let r1 := createTask freshKidState "p1"
        { title := "Max 1", points := 2147483647, assignedKidId := "kid-1" }
     let r2 := createTask r1.2 "p1"
        { title := "Max 2", points := 2147483647, assignedKidId := "kid-1" }
     let r3 := completeTask r2.2 (Principal.kid "kid-1" "p1") 1 none 5
     let r4 := completeTask r3.2 (Principal.kid "kid-1" "p1") 2 none 6
     r1.1 = ApiResult.created
        { id := 1, title := "Max 1", points := 2147483647, assignedKidId := "kid-1",
          createdByParentId := "p1", isComplete := false, completedAt := none }
     ∧ r2.1 = ApiResult.created
        { id := 2, title := "Max 2", points := 2147483647, assignedKidId := "kid-1",
          createdByParentId := "p1", isComplete := false, completedAt := none }
     ∧ r3.1.isOk = true
     ∧ r4.1.isOk = true
     ∧ r4.2.kids
         = [{ id := "kid-1", parentId := "p1", displayName := "Kid 1",
              pointsBalance := -2 }]
     ∧ sumDeltaFor r4.2.transactions "kid-1" = 4294967294
     ∧ ¬ (∀ k ∈ r4.2.kids,
            k.pointsBalance = sumDeltaFor r4.2.transactions k.id)) := by
  decide
